import Mathlib

/-!
# Verification of the FastText news-classifier service

Shallow embedding of `src/backend/news-classificator-service/classifier.py`
(`FastTextNewsClassifier`): text normalization, single-text classification
with its empty-input and error fallbacks, and batch classification.

Modelling conventions:
* Python strings are `List Char`; Python floats coming out of the model are
  modelled as rationals `ℚ` (the code only copies them, never computes).
* The external FastText model is an abstract inference function
  `List Char → Except Unit (List Char × ℚ)` returning the raw top-1 label
  (still carrying the `__label__` prefix) and its score, or an arbitrary
  inference exception.
* Python dicts (`category_mapping`, `category_names`) are association lists;
  `dict.get(k, d)` is `(List.lookup k m).getD d` and `dict[k]` is a lookup
  whose `none` case raises (is caught by the surrounding `try`).
* A raised Python exception is the `Except.error` case of the result.
-/

/-- The characters Python's `str.strip()` removes: characters for which
`str.isspace()` holds (ASCII whitespace, the C1 control spaces, and the
Unicode space separators). -/
def pyWhitespace : List Char :=
  [' ', '\t', '\n', '\r', '\x0b', '\x0c',
   '\x1c', '\x1d', '\x1e', '\x1f', '\x85', '\xa0',
   '\u1680', '\u2000', '\u2001', '\u2002', '\u2003', '\u2004', '\u2005',
   '\u2006', '\u2007', '\u2008', '\u2009', '\u200a', '\u2028', '\u2029',
   '\u202f', '\u205f', '\u3000']

/-- Python `s.strip()`: drop whitespace from both ends. -/
def pyStrip (s : List Char) : List Char :=
  ((s.dropWhile (· ∈ pyWhitespace)).reverse.dropWhile (· ∈ pyWhitespace)).reverse

/-- Worker for `pyReplace`. The first argument counts characters of a
matched occurrence of `pat` that remain to be discarded; when it is zero
the scan looks for the next occurrence. Recursion is structural on the
string being scanned. -/
def pyReplaceAux (pat repl : List Char) : Nat → List Char → List Char
  | _, [] => []
  | skip + 1, _ :: rest => pyReplaceAux pat repl skip rest
  | 0, c :: rest =>
    if pat ≠ [] ∧ pat.isPrefixOf (c :: rest) then
      repl ++ pyReplaceAux pat repl (pat.length - 1) rest
    else
      c :: pyReplaceAux pat repl 0 rest

/-- Python `s.replace(old, new)` for non-empty `old`: replace all
non-overlapping occurrences left to right. -/
def pyReplace (pat repl s : List Char) : List Char :=
  pyReplaceAux pat repl 0 s

/-- Line 99 of `classifier.py`:
`text = text.strip().replace('\n', ' ').replace('\r', '')`.
Single-character replacements are a map (for `'\n' → ' '`) and a filter
(for `'\r' → ''`). -/
def normalizeText (text : List Char) : List Char :=
  ((pyStrip text).map (fun c => if c = '\n' then ' ' else c)).filter (· ≠ '\r')

/-- The classification result dictionary built by `classify_text`. -/
structure ClassificationResult where
  original_category : List Char
  original_score : ℚ
  category_id : Int
  category_name : List Char
  confidence : ℚ
deriving Repr, DecidableEq

/-- The raised-exception side of the embedding. -/
inductive PyErr where
  /-- `RuntimeError("Model not loaded. Call load_model() first.")` -/
  | runtimeError
deriving Repr, DecidableEq

/-- An abstract loaded FastText model: `model.predict(text, k=1)` together
with the extraction `prediction[0][0]` / `float(prediction[1][0])`, which
either yields the raw top-1 label and score or raises. -/
def PredictFn : Type := List Char → Except Unit (List Char × ℚ)

/-- The classifier state: the (possibly absent) model handle and the two
configuration tables. -/
structure FastTextNewsClassifier where
  model : Option PredictFn
  category_mapping : List (List Char × Int)
  category_names : List (Int × List Char)

/-- The hardcoded empty-input result (lines 103–109). -/
def emptyTextResult : ClassificationResult :=
  { original_category := "unknown".data
    original_score := 0
    category_id := 5
    category_name := "Общество".data
    confidence := 0 }

/-- The hardcoded error-fallback result (lines 134–140). -/
def errorFallbackResult : ClassificationResult :=
  { original_category := "error".data
    original_score := 0
    category_id := 5
    category_name := "Общество".data
    confidence := 0 }

/-- `classify_text` (lines 78–140), instrumented: besides the returned
result it records the text passed to `model.predict`
(`none` when no inference call was made). -/
def classify_textI (c : FastTextNewsClassifier) (text : List Char) :
    Except PyErr (ClassificationResult × Option (List Char)) :=
  match c.model with
  | none => .error .runtimeError
  | some predict =>
    let text := normalizeText text
    if text = [] then
      .ok (emptyTextResult, none)
    else
      match predict text with
      | .error _ =>
        -- `except Exception` around the whole try block (lines 131–140)
        .ok (errorFallbackResult, some text)
      | .ok (rawLabel, score) =>
        let original_label := pyReplace "__label__".data [] rawLabel
        let mapped_id := (List.lookup original_label c.category_mapping).getD 5
        match List.lookup mapped_id c.category_names with
        | none =>
          -- `self.category_names[mapped_id]` raises KeyError, caught below
          .ok (errorFallbackResult, some text)
        | some mapped_name =>
          .ok ({ original_category := original_label
                 original_score := score
                 category_id := mapped_id
                 category_name := mapped_name
                 confidence := score }, some text)

/-- `classify_text` as the caller sees it. -/
def classify_text (c : FastTextNewsClassifier) (text : List Char) :
    Except PyErr ClassificationResult :=
  (classify_textI c text).map Prod.fst

/-- A batch input item `{'index': ..., 'title': ..., 'description': ...}`. -/
structure BatchItem where
  index : Int
  title : List Char
  description : List Char

/-- A classification result with the `'index'` key attached (line 168). -/
structure IndexedResult where
  result : ClassificationResult
  index : Int
deriving Repr, DecidableEq

/-- The text built for a batch item (line 164):
`f"{title}. {description}".strip()`. -/
def batchItemText (item : BatchItem) : List Char :=
  pyStrip (item.title ++ ". ".data ++ item.description)

/-- `classify_batch` (lines 142–172): classify each item on
`"{title}. {description}"` (trimmed) and attach its index, in order. -/
def classify_batch (c : FastTextNewsClassifier) (items : List BatchItem) :
    Except PyErr (List IndexedResult) :=
  items.mapM (fun item => do
    let r ← classify_text c (batchItemText item)
    pure { result := r, index := item.index })

/-- `is_loaded` (lines 174–176). -/
def is_loaded (c : FastTextNewsClassifier) : Bool :=
  c.model.isSome

instance {ε α : Type} [DecidableEq ε] [DecidableEq α] :
    DecidableEq (Except ε α) := fun a b =>
  match a, b with
  | .error e1, .error e2 =>
    if h : e1 = e2 then .isTrue (by rw [h])
    else .isFalse (fun hc => by cases hc; exact h rfl)
  | .ok a1, .ok a2 =>
    if h : a1 = a2 then .isTrue (by rw [h])
    else .isFalse (fun hc => by cases hc; exact h rfl)
  | .error _, .ok _ => .isFalse (fun hc => by cases hc)
  | .ok _, .error _ => .isFalse (fun hc => by cases hc)

/-! ## Branch lemmas for `classify_text` -/

/-- With the model loaded and normalized text empty, `classify_text` takes
the empty-input branch and makes no inference call. -/
theorem classify_textI_empty (c : FastTextNewsClassifier) (predict : PredictFn)
    (hm : c.model = some predict) (text : List Char)
    (h : normalizeText text = []) :
    classify_textI c text = .ok (emptyTextResult, none) := by
  unfold classify_textI
  rw [hm]
  simp [h]

/-- With the model loaded, normalized text non-empty and inference raising,
`classify_text` takes the error-fallback branch. -/
theorem classify_textI_error (c : FastTextNewsClassifier) (predict : PredictFn)
    (hm : c.model = some predict) (text : List Char) (e : Unit)
    (h : normalizeText text ≠ [])
    (he : predict (normalizeText text) = .error e) :
    classify_textI c text = .ok (errorFallbackResult, some (normalizeText text)) := by
  unfold classify_textI
  rw [hm]
  simp [h, he]

/-- With the model loaded, normalized text non-empty and inference
returning `(rawLabel, score)`, the result of `classify_text` is determined
by the two table lookups. -/
theorem classify_textI_success (c : FastTextNewsClassifier) (predict : PredictFn)
    (hm : c.model = some predict) (text : List Char)
    (rawLabel : List Char) (score : ℚ)
    (h : normalizeText text ≠ [])
    (hp : predict (normalizeText text) = .ok (rawLabel, score)) :
    classify_textI c text =
      match List.lookup
          ((List.lookup (pyReplace "__label__".data [] rawLabel)
            c.category_mapping).getD 5) c.category_names with
      | none => .ok (errorFallbackResult, some (normalizeText text))
      | some mapped_name =>
        .ok ({ original_category := pyReplace "__label__".data [] rawLabel
               original_score := score
               category_id := (List.lookup (pyReplace "__label__".data [] rawLabel)
                 c.category_mapping).getD 5
               category_name := mapped_name
               confidence := score }, some (normalizeText text)) := by
  unfold classify_textI
  rw [hm]
  simp [h, hp]

/-- With the model loaded, `classify_textI` never raises. -/
theorem classify_textI_isOk (c : FastTextNewsClassifier) (predict : PredictFn)
    (hm : c.model = some predict) (text : List Char) :
    ∃ p, classify_textI c text = .ok p := by
  by_cases h : normalizeText text = []
  · exact ⟨_, classify_textI_empty c predict hm text h⟩
  · cases hp : predict (normalizeText text) with
    | error e => exact ⟨_, classify_textI_error c predict hm text e h hp⟩
    | ok v =>
      rw [classify_textI_success c predict hm text v.1 v.2 h (by rw [hp])]
      split
      · exact ⟨_, rfl⟩
      · exact ⟨_, rfl⟩

/-- With the model loaded, `classify_text` never raises. -/
theorem classify_text_isOk (c : FastTextNewsClassifier) (predict : PredictFn)
    (hm : c.model = some predict) (text : List Char) :
    ∃ r, classify_text c text = .ok r := by
  obtain ⟨p, hp⟩ := classify_textI_isOk c predict hm text
  exact ⟨p.1, by unfold classify_text; rw [hp]; rfl⟩

/-! ## Concrete instantiation used by the witnesses

The deployed `config.yaml` is not part of the sources; these tables follow
the category ids and display names exercised by `test_classifier.py` and
the defaults stated in the configuration description. -/

def demoMapping : List (List Char × Int) :=
  [("sports".data, 1), ("technology".data, 2), ("science".data, 2),
   ("politics".data, 3), ("economy".data, 4), ("society".data, 5)]

def demoNames : List (Int × List Char) :=
  [(1, "Спорт".data), (2, "Технологии".data), (3, "Политика".data),
   (4, "Экономика и финансы".data), (5, "Общество".data)]

/-- Scores used by the demo model, built as literal rationals so that the
kernel can evaluate comparisons on them. -/
def demoScore : ℚ := { num := 9, den := 10 }

def demoScoreLow : ℚ := { num := 3, den := 5 }

/-- A model whose inference always succeeds: "economy" on the economy
headline, an unmapped label on everything else. -/
def demoPredict : PredictFn := fun t =>
  if t = "Центробанк повысил ключевую ставку до 16%".data then
    .ok ("__label__economy".data, demoScore)
  else
    .ok ("__label__climate".data, demoScoreLow)

/-- A model whose inference always raises. -/
def failingPredict : PredictFn := fun _ => .error ()

def cDemo : FastTextNewsClassifier :=
  { model := some demoPredict
    category_mapping := demoMapping
    category_names := demoNames }

def cFailing : FastTextNewsClassifier :=
  { model := some failingPredict
    category_mapping := demoMapping
    category_names := demoNames }

def cUnloaded : FastTextNewsClassifier :=
  { model := none
    category_mapping := demoMapping
    category_names := demoNames }

/-! ## Claims -/

/-- C1: once the model is loaded, `classify_text` never raises to its
caller; and if the inference call raises — or the name lookup after it
does — the function returns the error-fallback result
`{original_category="error", original_score=0.0, category_id=5,
category_name="Общество", confidence=0.0}` instead of propagating. -/
theorem classify_text_never_raises (c : FastTextNewsClassifier)
    (predict : PredictFn) (hm : c.model = some predict) (text : List Char) :
    (∃ r, classify_text c text = Except.ok r) ∧
    (∀ e, predict (normalizeText text) = Except.error e →
      normalizeText text ≠ [] →
      classify_text c text = Except.ok errorFallbackResult) ∧
    (∀ rawLabel score,
      predict (normalizeText text) = Except.ok (rawLabel, score) →
      normalizeText text ≠ [] →
      List.lookup ((List.lookup (pyReplace "__label__".data [] rawLabel)
        c.category_mapping).getD 5) c.category_names = none →
      classify_text c text = Except.ok errorFallbackResult) := by
  refine ⟨classify_text_isOk c predict hm text, fun e he hne => ?_,
    fun rawLabel score hok hne hkey => ?_⟩
  · unfold classify_text
    rw [classify_textI_error c predict hm text e hne he]
    rfl
  · unfold classify_text
    rw [classify_textI_success c predict hm text rawLabel score hne hok,
      hkey]
    rfl

theorem classify_text_never_raises_witness :
    classify_text cFailing "Новости дня".data = Except.ok errorFallbackResult :=
  (classify_text_never_raises cFailing failingPredict rfl
    "Новости дня".data).2.1 () rfl (by decide)

/-- C9: if the model handle is absent, `classify_text` raises a
`RuntimeError` rather than returning any result. -/
theorem classify_text_model_not_loaded (c : FastTextNewsClassifier)
    (hm : c.model = none) (text : List Char) :
    classify_text c text = Except.error PyErr.runtimeError := by
  unfold classify_text classify_textI
  rw [hm]
  rfl

theorem classify_text_model_not_loaded_witness :
    classify_text cUnloaded "Новости дня".data = Except.error PyErr.runtimeError :=
  classify_text_model_not_loaded cUnloaded rfl "Новости дня".data

/-- C7: on every branch that returns a result, the `confidence` field is a
direct copy of the `original_score` field. -/
theorem classify_text_confidence_copies_score (c : FastTextNewsClassifier)
    (text : List Char) (r : ClassificationResult)
    (hr : classify_text c text = Except.ok r) :
    r.confidence = r.original_score := by
  cases hmodel : c.model with
  | none =>
    unfold classify_text classify_textI at hr
    rw [hmodel] at hr
    exact absurd hr (by simp [Except.map])
  | some predict =>
    unfold classify_text at hr
    by_cases h : normalizeText text = []
    · rw [classify_textI_empty c predict hmodel text h] at hr
      simp [Except.map] at hr
      rw [← hr]
      rfl
    · cases hp : predict (normalizeText text) with
      | error e =>
        rw [classify_textI_error c predict hmodel text e h hp] at hr
        simp [Except.map] at hr
        rw [← hr]
        rfl
      | ok v =>
        rw [classify_textI_success c predict hmodel text v.1 v.2 h (by rw [hp])] at hr
        revert hr
        split <;> intro hr <;> simp [Except.map] at hr <;> subst hr
        all_goals rfl

theorem classify_text_confidence_copies_score_witness :
    emptyTextResult.confidence = emptyTextResult.original_score :=
  classify_text_confidence_copies_score cDemo " \n ".data emptyTextResult
    (by decide)

/-- C8: `classify_text` is deterministic in its inputs: two classifiers
with the same tables whose models agree on the normalized text produce
identical results on that text. -/
theorem classify_text_deterministic (c₁ c₂ : FastTextNewsClassifier)
    (p₁ p₂ : PredictFn) (h₁ : c₁.model = some p₁) (h₂ : c₂.model = some p₂)
    (text : List Char)
    (hp : p₁ (normalizeText text) = p₂ (normalizeText text))
    (hmap : c₁.category_mapping = c₂.category_mapping)
    (hnames : c₁.category_names = c₂.category_names) :
    classify_text c₁ text = classify_text c₂ text := by
  unfold classify_text
  by_cases h : normalizeText text = []
  · rw [classify_textI_empty c₁ p₁ h₁ text h,
      classify_textI_empty c₂ p₂ h₂ text h]
  · cases hv : p₁ (normalizeText text) with
    | error e =>
      rw [classify_textI_error c₁ p₁ h₁ text e h hv,
        classify_textI_error c₂ p₂ h₂ text e h (by rw [← hp, hv])]
    | ok v =>
      rw [classify_textI_success c₁ p₁ h₁ text v.1 v.2 h (by rw [hv]),
        classify_textI_success c₂ p₂ h₂ text v.1 v.2 h (by rw [← hp, hv]),
        hmap, hnames]

theorem classify_text_deterministic_witness :
    classify_text cDemo "Выборы".data = classify_text cDemo "Выборы".data :=
  classify_text_deterministic cDemo cDemo demoPredict demoPredict rfl rfl
    "Выборы".data rfl rfl rfl

/-! ## Whitespace lemmas -/

/-- Stripping a whitespace-only string yields the empty string. -/
theorem pyStrip_eq_nil (s : List Char) (h : ∀ ch ∈ s, ch ∈ pyWhitespace) :
    pyStrip s = [] := by
  unfold pyStrip
  have h1 : s.dropWhile (fun c => decide (c ∈ pyWhitespace)) = [] :=
    List.dropWhile_eq_nil_iff.mpr (fun x hx => by simpa using h x hx)
  rw [h1]
  rfl

/-- Normalizing a whitespace-only string yields the empty string. -/
theorem normalizeText_eq_nil_of_ws (text : List Char)
    (h : ∀ ch ∈ text, ch ∈ pyWhitespace) : normalizeText text = [] := by
  unfold normalizeText
  rw [pyStrip_eq_nil text h]
  rfl

/-- Whenever `classify_text` makes an inference call, the text it passes to
the model is the normalized input. -/
theorem classify_textI_inference_input (c : FastTextNewsClassifier)
    (predict : PredictFn) (hm : c.model = some predict) (text : List Char)
    (p : ClassificationResult × Option (List Char))
    (hp : classify_textI c text = Except.ok p) (t : List Char)
    (ht : p.2 = some t) : t = normalizeText text := by
  by_cases h : normalizeText text = []
  · rw [classify_textI_empty c predict hm text h] at hp
    cases hp
    cases ht
  · cases hv : predict (normalizeText text) with
    | error e =>
      rw [classify_textI_error c predict hm text e h hv] at hp
      cases hp
      cases ht
      rfl
    | ok v =>
      rw [classify_textI_success c predict hm text v.1 v.2 h (by rw [hv])] at hp
      revert hp
      split <;> intro hp <;> cases hp <;> cases ht <;> rfl

/-- C4: an input that is empty or consists only of whitespace is answered
with the default result `{original_category="unknown", original_score=0.0,
category_id=5, category_name="Общество", confidence=0.0}` and no inference
call is made. -/
theorem classify_text_whitespace_only (c : FastTextNewsClassifier)
    (predict : PredictFn) (hm : c.model = some predict) (text : List Char)
    (hws : ∀ ch ∈ text, ch ∈ pyWhitespace) :
    classify_textI c text = Except.ok (emptyTextResult, none) ∧
    classify_text c text = Except.ok emptyTextResult := by
  have he := classify_textI_empty c predict hm text
    (normalizeText_eq_nil_of_ws text hws)
  exact ⟨he, by unfold classify_text; rw [he]; rfl⟩

theorem classify_text_whitespace_only_witness :
    classify_text cDemo " \r\n\t".data = Except.ok emptyTextResult :=
  (classify_text_whitespace_only cDemo demoPredict rfl " \r\n\t".data
    (by decide)).2

/-- C2: every result `classify_text` returns carries a `category_id` that
is a key of the `category_names` table, on every branch, provided the
configured table contains the default id 5. -/
theorem classify_text_category_id_in_names (c : FastTextNewsClassifier)
    (text : List Char) (r : ClassificationResult)
    (hdef : ∃ n, List.lookup (5 : Int) c.category_names = some n)
    (hr : classify_text c text = Except.ok r) :
    ∃ n, List.lookup r.category_id c.category_names = some n := by
  cases hmodel : c.model with
  | none =>
    unfold classify_text classify_textI at hr
    rw [hmodel] at hr
    exact absurd hr (by simp [Except.map])
  | some predict =>
    unfold classify_text at hr
    by_cases h : normalizeText text = []
    · rw [classify_textI_empty c predict hmodel text h] at hr
      simp [Except.map] at hr
      rw [← hr]
      exact hdef
    · cases hp : predict (normalizeText text) with
      | error e =>
        rw [classify_textI_error c predict hmodel text e h hp] at hr
        simp [Except.map] at hr
        rw [← hr]
        exact hdef
      | ok v =>
        rw [classify_textI_success c predict hmodel text v.1 v.2 h
          (by rw [hp])] at hr
        revert hr
        split <;> intro hr <;> simp [Except.map] at hr <;> subst hr
        · exact hdef
        · next nm hnm => exact ⟨nm, hnm⟩

theorem classify_text_category_id_in_names_witness :
    ∃ n, List.lookup emptyTextResult.category_id cDemo.category_names =
      some n :=
  classify_text_category_id_in_names cDemo "\t".data emptyTextResult
    ⟨"Общество".data, by decide⟩ (by decide)

/-- The result `cDemo` produces on the economy headline. -/
def demoEconomyResult : ClassificationResult :=
  { original_category := "economy".data
    original_score := demoScore
    category_id := 4
    category_name := "Экономика и финансы".data
    confidence := demoScore }

/-- C5: after a successful inference, a native label absent from
`category_mapping` yields the default category id 5; a mapped label yields
its mapped id (the latter provided the configured name table covers that
id). -/
theorem classify_text_label_mapping (c : FastTextNewsClassifier)
    (predict : PredictFn) (hm : c.model = some predict)
    (text rawLabel : List Char) (score : ℚ)
    (hne : normalizeText text ≠ [])
    (hp : predict (normalizeText text) = Except.ok (rawLabel, score))
    (r : ClassificationResult) (hr : classify_text c text = Except.ok r) :
    (List.lookup (pyReplace "__label__".data [] rawLabel)
        c.category_mapping = none → r.category_id = 5) ∧
    (∀ m : Int,
      List.lookup (pyReplace "__label__".data [] rawLabel)
        c.category_mapping = some m →
      (∃ n, List.lookup m c.category_names = some n) →
      r.category_id = m) := by
  unfold classify_text at hr
  rw [classify_textI_success c predict hm text rawLabel score hne hp] at hr
  revert hr
  split <;> intro hr <;> simp [Except.map] at hr <;> subst hr
  · next hnone =>
    constructor
    · intro _
      rfl
    · intro m hmm hex
      obtain ⟨n, hn⟩ := hex
      rw [hmm] at hnone
      simp only [Option.getD_some] at hnone
      rw [hnone] at hn
      cases hn
  · constructor
    · intro hnone
      simp [hnone]
    · intro m hmm _
      simp [hmm]

theorem classify_text_label_mapping_witness :
    demoEconomyResult.category_id = 4 :=
  (classify_text_label_mapping cDemo demoPredict rfl
      "Центробанк повысил ключевую ставку до 16%".data
      "__label__economy".data demoScore (by decide) (by decide)
      demoEconomyResult (by decide)).2 4 (by decide)
    ⟨"Экономика и финансы".data, by decide⟩

/-! ## Claim C3: the normalization -/

/-- The normalization exactly as stated: after stripping, every embedded
newline and carriage return is collapsed to a single space. -/
def claimedCollapse : List Char → List Char
  | [] => []
  | c :: rest =>
    (if c = '\n' ∨ c = '\r' then ' ' else c) :: claimedCollapse rest

/-- The claimed normalization of the input. -/
def claimedNormalize (text : List Char) : List Char :=
  claimedCollapse (pyStrip text)

/-- The result `cDemo` produces on texts other than the economy headline:
label "climate" is not in `demoMapping`, so the default id 5 is used. -/
def demoClimateResult : ClassificationResult :=
  { original_category := "climate".data
    original_score := demoScoreLow
    category_id := 5
    category_name := "Общество".data
    confidence := demoScoreLow }

/-- C3 fails on the code: on input `"a\rb"` the code deletes the carriage
return (normalized text `"ab"`, which is also what is passed to
inference), while the claim demands `"a b"`. -/
theorem normalizeText_deletes_cr_counterexample :
    normalizeText ['a', '\r', 'b'] = ['a', 'b'] ∧
    claimedNormalize ['a', '\r', 'b'] = ['a', ' ', 'b'] ∧
    normalizeText ['a', '\r', 'b'] ≠ claimedNormalize ['a', '\r', 'b'] ∧
    classify_textI cDemo ['a', '\r', 'b'] =
      Except.ok (demoClimateResult, some ['a', 'b']) := by
  decide

/-- The amended normalization: after stripping, every embedded newline
becomes a single space and every carriage return is deleted. -/
def amendedCollapse : List Char → List Char
  | [] => []
  | c :: rest =>
    if c = '\n' then ' ' :: amendedCollapse rest
    else if c = '\r' then amendedCollapse rest
    else c :: amendedCollapse rest

/-- The code's normalization agrees with the amended description. -/
theorem normalizeText_eq_amended (text : List Char) :
    normalizeText text = amendedCollapse (pyStrip text) := by
  unfold normalizeText
  generalize pyStrip text = l
  induction l with
  | nil => rfl
  | cons c rest ih =>
    simp only [List.map_cons, List.filter_cons, ne_eq, decide_not] at ih ⊢
    by_cases h1 : c = '\n'
    · subst h1
      simp [amendedCollapse, ih]
    · by_cases h2 : c = '\r'
      · subst h2
        simp [amendedCollapse, ih]
      · simp [amendedCollapse, h1, h2, ih]

/-- C3 amended: the text `classify_text` uses for the emptiness check and
passes to inference is the input stripped, with embedded newlines collapsed
to single spaces and carriage returns removed. -/
theorem classify_text_normalization_amended (c : FastTextNewsClassifier)
    (predict : PredictFn) (hm : c.model = some predict) (text : List Char) :
    normalizeText text = amendedCollapse (pyStrip text) ∧
    (amendedCollapse (pyStrip text) = [] →
      classify_textI c text = Except.ok (emptyTextResult, none)) ∧
    (∀ p, classify_textI c text = Except.ok p → ∀ t, p.2 = some t →
      t = amendedCollapse (pyStrip text)) := by
  refine ⟨normalizeText_eq_amended text, fun h => ?_, fun p hp t ht => ?_⟩
  · exact classify_textI_empty c predict hm text
      ((normalizeText_eq_amended text).trans h)
  · rw [← normalizeText_eq_amended text]
    exact classify_textI_inference_input c predict hm text p hp t ht

theorem classify_text_normalization_amended_witness :
    normalizeText ['a', '\r', 'b'] = amendedCollapse (pyStrip ['a', '\r', 'b']) :=
  (classify_text_normalization_amended cDemo demoPredict rfl
    ['a', '\r', 'b']).1

/-! ## Claims C6 and C10: batch classification -/

/-- C6: with the model loaded, `classify_batch` returns one result per
input item, the i-th result carries the i-th item's index, and each item is
classified on `"{title}. {description}"` trimmed, in input order. -/
theorem classify_batch_shape (c : FastTextNewsClassifier)
    (predict : PredictFn) (hm : c.model = some predict)
    (items : List BatchItem) :
    ∃ rs, classify_batch c items = Except.ok rs ∧
      rs.length = items.length ∧
      ∀ i (hi : i < items.length) (hi2 : i < rs.length),
        (rs.get ⟨i, hi2⟩).index = (items.get ⟨i, hi⟩).index ∧
        Except.ok (rs.get ⟨i, hi2⟩).result =
          classify_text c (batchItemText (items.get ⟨i, hi⟩)) := by
  induction items with
  | nil =>
    exact ⟨[], rfl, rfl, fun i hi => absurd hi (Nat.not_lt_zero i)⟩
  | cons item rest ih =>
    obtain ⟨rs, hrs, hlen, hidx⟩ := ih
    obtain ⟨r, hr⟩ := classify_text_isOk c predict hm (batchItemText item)
    refine ⟨⟨r, item.index⟩ :: rs, ?_, ?_, ?_⟩
    · unfold classify_batch at hrs ⊢
      rw [List.mapM_cons, hr, hrs]
      rfl
    · simpa using hlen
    · intro i hi hi2
      cases i with
      | zero => exact ⟨rfl, hr.symm⟩
      | succ j =>
        exact hidx j (Nat.lt_of_succ_lt_succ hi) (Nat.lt_of_succ_lt_succ hi2)

theorem classify_batch_shape_witness :
    ∃ rs,
      classify_batch cDemo [⟨7, "Выборы".data, "Итоги".data⟩] =
        Except.ok rs ∧
      rs.length = [(⟨7, "Выборы".data, "Итоги".data⟩ : BatchItem)].length ∧
      ∀ i (hi : i < [(⟨7, "Выборы".data, "Итоги".data⟩ : BatchItem)].length)
        (hi2 : i < rs.length),
        (rs.get ⟨i, hi2⟩).index =
          ([(⟨7, "Выборы".data, "Итоги".data⟩ : BatchItem)].get ⟨i, hi⟩).index ∧
        Except.ok (rs.get ⟨i, hi2⟩).result =
          classify_text cDemo
            (batchItemText
              ([(⟨7, "Выборы".data, "Итоги".data⟩ : BatchItem)].get ⟨i, hi⟩)) :=
  classify_batch_shape cDemo demoPredict rfl
    [⟨7, "Выборы".data, "Итоги".data⟩]

/-- C10: a batch item whose title and description are both empty produces
the text `"."`, which survives normalization, so `classify_text` invokes
inference on `"."` rather than taking the empty-input branch. -/
theorem classify_batch_empty_item_infers_dot (c : FastTextNewsClassifier)
    (predict : PredictFn) (hm : c.model = some predict) (item : BatchItem)
    (ht : item.title = []) (hd : item.description = []) :
    batchItemText item = ['.'] ∧
    ∃ r, classify_textI c (batchItemText item) =
      Except.ok (r, some ['.']) := by
  have hbt : batchItemText item = ['.'] := by
    unfold batchItemText
    rw [ht, hd]
    decide
  refine ⟨hbt, ?_⟩
  rw [hbt]
  have hne : normalizeText ['.'] ≠ [] := by decide
  have hnt : normalizeText ['.'] = ['.'] := by decide
  cases hv : predict (normalizeText ['.']) with
  | error e =>
    exact ⟨errorFallbackResult,
      by rw [classify_textI_error c predict hm ['.'] e hne hv, hnt]⟩
  | ok v =>
    rw [classify_textI_success c predict hm ['.'] v.1 v.2 hne (by rw [hv])]
    split
    · exact ⟨errorFallbackResult, by rw [hnt]⟩
    · exact ⟨_, by rw [hnt]⟩

theorem classify_batch_empty_item_infers_dot_witness :
    batchItemText ⟨3, [], []⟩ = ['.'] ∧
    ∃ r, classify_textI cDemo (batchItemText ⟨3, [], []⟩) =
      Except.ok (r, some ['.']) :=
  classify_batch_empty_item_infers_dot cDemo demoPredict rfl ⟨3, [], []⟩
    rfl rfl
